import Mathlib

/-
  Verification development for the Data module of rust-gpgme (src/data.rs).

  The module bridges user-supplied streams to the native gpgme engine via a
  four-slot callback table, wraps the opaque native data handle, and exposes
  a stream facade on top of it.  The native engine itself (the ffi crate) is
  external to the repository: every native entry point is modelled here by
  passing its observable result (a status code, an out-parameter handle, a
  signed byte count, the thread's last OS error) as an explicit argument, so
  that each definition below mirrors exactly the Rust control flow that
  inspects those results.

  The model fixes an LP64 platform: size_t and off_t and ssize_t are 64-bit,
  and the unchecked Rust casts (usize as ssize_t, u64 as off_t, off_t as u64)
  are modelled as two's-complement wraparound at 64 bits.
-/

/-- Two's-complement interpretation of a Nat as a signed 64-bit value:
    the result of a Rust cast such as `n as libc::ssize_t` or `off as libc::off_t`
    applied to an unsigned 64-bit quantity. -/
def i64ofNat (n : Nat) : Int :=
  if n % 2 ^ 64 < 2 ^ 63 then ((n % 2 ^ 64 : Nat) : Int)
  else ((n % 2 ^ 64 : Nat) : Int) - 2 ^ 64

/-- Wraparound of a signed value into an unsigned 64-bit value: the result of a
    Rust cast such as `offset as u64` applied to an off_t. -/
def u64ofInt (i : Int) : Nat :=
  (i % (2 ^ 64 : Int)).toNat

/-- The host error type from the external error module: wraps a native gpgme
    status code.  `Error::new(code)` builds one from a raw status. -/
structure Error where
  code : Nat
deriving DecidableEq

def Error.new (c : Nat) : Error := ⟨c⟩

/-- `WrappedError<S>(Error, S)`: a construction failure carrying the caller's
    original stream object alongside the error (src/data.rs lines 56-66). -/
structure WrappedError (S : Type) where
  e : Error
  s : S

/-- `WrappedError::error`: returns the first component. -/
def WrappedError.error {S : Type} (w : WrappedError S) : Error := w.e

/-- `WrappedError::into_inner`: consumes the wrapper and returns the stream. -/
def WrappedError.into_inner {S : Type} (w : WrappedError S) : S := w.s

/-- A host I/O error (std::io::Error), kept abstract: only its translation to a
    native errno (via the external `Error::from` and `to_errno`) is observable
    to the callbacks, and that translation is a model parameter. -/
structure IoErr where
  code : Nat
deriving DecidableEq

/-- The external error-translation environment used by the callbacks:
    `ioErrToErrno e` models `Error::from(e).to_errno()`, and `einvalErrno`
    models `gpgme_err_code_to_errno(GPG_ERR_EINVAL)`. -/
structure ErrEnv where
  ioErrToErrno : IoErr → Int
  einvalErrno : Int

/-- A concrete instance of the translation environment used to evaluate the
    model on closed inputs. -/
def sampleEnv : ErrEnv := ⟨fun e => (e.code : Int) + 1, 22⟩

/-- Tags identifying which generic callback function a populated slot of the
    native callback table holds. -/
inductive CbFn
  | readCb
  | writeCb
  | seekCb
  | releaseCb
deriving DecidableEq

/-- `ffi::gpgme_data_cbs`: the four optional native callback slots. -/
structure DataCbs where
  read : Option CbFn
  write : Option CbFn
  seek : Option CbFn
  release : Option CbFn
deriving DecidableEq

/-- The Data object: wraps one native handle (the lifetime marker has no
    runtime content and is omitted). -/
structure Data where
  raw : Nat
deriving DecidableEq

/-- `Data::from_raw`: a debug assertion rejects a null handle; `none` models
    the aborted (assertion-failed) outcome, `some` the constructed object. -/
def Data.from_raw (raw : Nat) : Option Data :=
  if raw = 0 then none else some ⟨raw⟩

/-- `Data::as_raw`: non-consuming raw handle accessor. -/
def Data.as_raw (d : Data) : Nat := d.raw

/-- `CallbackWrapper<S>`: the heap-allocated context pairing the callback
    table with the user's stream object. -/
structure CallbackWrapper (S : Type) where
  cbs : DataCbs
  inner : S

/-- The observable outcome of `Data::from_callbacks`: the returned value, the
    callback table that was handed to the native registration call, and how
    many heap contexts allocated by the call are still live when it returns
    (1 when ownership passed to the engine, 0 when the context was reclaimed). -/
structure FromCbsResult (S : Type) where
  res : Except (WrappedError S) (Option Data)
  registeredCbs : DataCbs
  liveContexts : Nat

/-- `Data::from_callbacks` (src/data.rs lines 174-189): box the context,
    register it with the engine (`ffiResult` is the status the external
    `gpgme_data_new_from_cbs` returns, `outHandle` its out-parameter); on
    status 0 wrap the handle, otherwise reclaim the box via `Box::from_raw`
    and return the stream inside a `WrappedError`. -/
def Data.from_callbacks {S : Type} (cbs : DataCbs) (src : S)
    (ffiResult : Nat) (outHandle : Nat) : FromCbsResult S :=
  let ctx : CallbackWrapper S := ⟨cbs, src⟩
  if ffiResult = 0 then
    ⟨Except.ok (Data.from_raw outHandle), ctx.cbs, 1⟩
  else
    ⟨Except.error ⟨Error.new ffiResult, ctx.inner⟩, ctx.cbs, 0⟩

/-- `Data::from_reader`: read and release slots only. -/
def Data.from_reader {S : Type} (r : S) (ffiResult outHandle : Nat) : FromCbsResult S :=
  Data.from_callbacks
    ⟨some CbFn.readCb, none, none, some CbFn.releaseCb⟩ r ffiResult outHandle

/-- `Data::from_seekable_reader`: read, seek and release slots. -/
def Data.from_seekable_reader {S : Type} (r : S) (ffiResult outHandle : Nat) : FromCbsResult S :=
  Data.from_callbacks
    ⟨some CbFn.readCb, none, some CbFn.seekCb, some CbFn.releaseCb⟩ r ffiResult outHandle

/-- `Data::from_writer`: write and release slots only. -/
def Data.from_writer {S : Type} (w : S) (ffiResult outHandle : Nat) : FromCbsResult S :=
  Data.from_callbacks
    ⟨none, some CbFn.writeCb, none, some CbFn.releaseCb⟩ w ffiResult outHandle

/-- `Data::from_seekable_writer`: write, seek and release slots. -/
def Data.from_seekable_writer {S : Type} (w : S) (ffiResult outHandle : Nat) : FromCbsResult S :=
  Data.from_callbacks
    ⟨none, some CbFn.writeCb, some CbFn.seekCb, some CbFn.releaseCb⟩ w ffiResult outHandle

/-- `Data::from_stream`: read, write and release slots, no seek. -/
def Data.from_stream {S : Type} (s : S) (ffiResult outHandle : Nat) : FromCbsResult S :=
  Data.from_callbacks
    ⟨some CbFn.readCb, some CbFn.writeCb, none, some CbFn.releaseCb⟩ s ffiResult outHandle

/-- `Data::from_seekable_stream`: all four slots. -/
def Data.from_seekable_stream {S : Type} (s : S) (ffiResult outHandle : Nat) : FromCbsResult S :=
  Data.from_callbacks
    ⟨some CbFn.readCb, some CbFn.writeCb, some CbFn.seekCb, some CbFn.releaseCb⟩ s ffiResult outHandle

/-- Tokens for the three standard streams handed to the std constructors. -/
inductive StdHandle
  | stdinObj
  | stdoutObj
  | stderrObj
deriving DecidableEq

/-- `Data::stdin`: `from_reader(io::stdin()).map_err(|err| err.error())`. -/
def Data.stdin (ffiResult outHandle : Nat) : Except Error (Option Data) :=
  match (Data.from_reader StdHandle.stdinObj ffiResult outHandle).res with
  | Except.error err => Except.error err.error
  | Except.ok d => Except.ok d

/-- `Data::stdout`: `from_writer(io::stdout()).map_err(|err| err.error())`. -/
def Data.stdout (ffiResult outHandle : Nat) : Except Error (Option Data) :=
  match (Data.from_writer StdHandle.stdoutObj ffiResult outHandle).res with
  | Except.error err => Except.error err.error
  | Except.ok d => Except.ok d

/-- `Data::stderr`: `from_writer(io::stderr()).map_err(|err| err.error())`. -/
def Data.stderr (ffiResult outHandle : Nat) : Except Error (Option Data) :=
  match (Data.from_writer StdHandle.stderrObj ffiResult outHandle).res with
  | Except.error err => Except.error err.error
  | Except.ok d => Except.ok d

/-- `Data::new` (src/data.rs lines 118-124): the external `gpgme_data_new`
    returns `ffiResult` and fills `outHandle`; `return_err!` propagates a
    nonzero status before `Data::from_raw` is ever reached. -/
def Data.new (ffiResult : Nat) (outHandle : Nat) : Except Error (Option Data) :=
  if ffiResult = 0 then Except.ok (Data.from_raw outHandle)
  else Except.error (Error.new ffiResult)

/-- `read_callback` (src/data.rs lines 373-384): `res` is the outcome of the
    user stream's `read` on the `size`-byte slice; on `Ok(n)` return
    `n as ssize_t`, on `Err` set the thread errno to the translated code and
    return -1.  The returned pair is (ssize_t return value, errno set during
    the call, `none` when the callback did not touch it). -/
def read_callback (env : ErrEnv) (res : Except IoErr Nat) : Int × Option Int :=
  match res with
  | Except.ok n => (i64ofNat n, none)
  | Except.error err => (-1, some (env.ioErrToErrno err))

/-- `write_callback` (src/data.rs lines 386-397): same shape as the read
    callback in the opposite byte-flow direction. -/
def write_callback (env : ErrEnv) (res : Except IoErr Nat) : Int × Option Int :=
  match res with
  | Except.ok n => (i64ofNat n, none)
  | Except.error err => (-1, some (env.ioErrToErrno err))

/-- std::io::SeekFrom: `Start` holds a u64, `End` and `Current` hold an i64. -/
inductive SeekFrom
  | Start (off : Nat)
  | End (off : Int)
  | Current (off : Int)
deriving DecidableEq

/-- The Linux value of libc::SEEK_SET. -/
def SEEK_SET : Int := 0
/-- The Linux value of libc::SEEK_CUR. -/
def SEEK_CUR : Int := 1
/-- The Linux value of libc::SEEK_END. -/
def SEEK_END : Int := 2

/-- The tail of `seek_callback` once the whence code was mapped to a
    `SeekFrom`: run the user stream's seek (`seekFn`), on `Ok(n)` return
    `n as off_t`, on `Err` set errno to the translated code and return -1.
    The triple is (off_t return, errno set during the call, whether the user
    stream's seek was invoked). -/
def runSeek (env : ErrEnv) (seekFn : SeekFrom → Except IoErr Nat)
    (pos : SeekFrom) : Int × Option Int × Bool :=
  match seekFn pos with
  | Except.ok n => (i64ofNat n, none, true)
  | Except.error err => (-1, some (env.ioErrToErrno err), true)

/-- `seek_callback` (src/data.rs lines 399-418): map the whence code
    (SEEK_SET / SEEK_END / SEEK_CUR) to a `SeekFrom` — `Start` takes
    `offset as u64` — and delegate to the stream; any other whence sets
    errno to EINVAL and returns -1 without touching the stream. -/
def seek_callback (env : ErrEnv) (seekFn : SeekFrom → Except IoErr Nat)
    (offset : Int) (whence : Int) : Int × Option Int × Bool :=
  if whence = SEEK_SET then runSeek env seekFn (SeekFrom.Start (u64ofInt offset))
  else if whence = SEEK_END then runSeek env seekFn (SeekFrom.End offset)
  else if whence = SEEK_CUR then runSeek env seekFn (SeekFrom.Current offset)
  else (-1, some env.einvalErrno, false)

/-- An owned Data value together with its Rust drop flag: `mem::forget`
    suppresses the drop glue for the value it consumed. -/
structure OwnedData where
  d : Data
  forgotten : Bool

/-- `mem::forget`: the value's drop glue will not run. -/
def mem_forget (o : OwnedData) : OwnedData := { o with forgotten := true }

/-- The drop glue of `Data` (src/data.rs lines 317-323): unless the value was
    forgotten, `Drop::drop` runs `gpgme_data_release` once.  The result is the
    updated count of native release calls performed on the handle. -/
def drop_glue (o : OwnedData) (releases : Nat) : Nat :=
  if o.forgotten then releases else releases + 1

/-- `Data::into_raw` (src/data.rs lines 99-103): read the raw handle,
    `mem::forget(self)`, and hand the handle to the caller; performs no
    native release itself. -/
def Data.into_raw (o : OwnedData) : Nat × OwnedData :=
  (o.d.raw, mem_forget o)

/-- `Data::try_into_bytes` (src/data.rs lines 304-314): `self.into_raw()`
    feeds the handle to the external `gpgme_data_release_and_get_mem`, which
    releases the handle as part of the same call and yields the buffer
    (`nativeBuf`, `none` when the native call returned a null buffer).
    Returns (result, the forgotten owner, native release calls performed). -/
def Data.try_into_bytes (o : OwnedData) (nativeBuf : Option (List Nat)) :
    Option (List Nat) × OwnedData × Nat :=
  let p := Data.into_raw o
  (nativeBuf, p.2, 1)

/-- The three ways a live Data value's scope can end. -/
inductive FinalOp
  | dropIt
  | intoRaw
  | tryIntoBytes (buf : Option (List Nat))

/-- Total native release calls performed on the handle over a whole lifecycle
    that ends in the given operation, counting the drop glue that Rust runs
    at scope exit (a no-op for forgotten values). -/
def releasesOnPath (d : Data) : FinalOp → Nat
  | FinalOp.dropIt => drop_glue ⟨d, false⟩ 0
  | FinalOp.intoRaw => drop_glue (Data.into_raw ⟨d, false⟩).2 0
  | FinalOp.tryIntoBytes buf =>
      let t := Data.try_into_bytes ⟨d, false⟩ buf
      drop_glue t.2.1 t.2.2

/-- `Read for Data` (src/data.rs lines 325-337): `nativeRes` is the signed
    count the external `gpgme_data_read` returned and `lastOs` the thread's
    last OS error; nonnegative counts are returned as `Ok(result as usize)`,
    negative ones become `Err(Error::last_os_error().into())`. -/
def Data.read (nativeRes : Int) (lastOs : IoErr) : Except IoErr Nat :=
  if 0 ≤ nativeRes then Except.ok nativeRes.toNat else Except.error lastOs

/-- `Write for Data` (src/data.rs lines 339-355): mirror image of the read
    facade. -/
def Data.write (nativeRes : Int) (lastOs : IoErr) : Except IoErr Nat :=
  if 0 ≤ nativeRes then Except.ok nativeRes.toNat else Except.error lastOs

/-- `flush` for Data: the body is exactly `Ok(())`; it consults no native
    entry point, so the definition takes no engine result at all. -/
def Data.flush : Except IoErr Unit := Except.ok ()

/-- The (off, whence) pair `Seek for Data` (src/data.rs lines 357-371) sends
    to `gpgme_data_seek`: `Start(off)` performs the cast `off as libc::off_t`
    on the unsigned offset. -/
def seek_conv : SeekFrom → Int × Int
  | SeekFrom.Start off => (i64ofNat off, SEEK_SET)
  | SeekFrom.End off => (off, SEEK_END)
  | SeekFrom.Current off => (off, SEEK_CUR)

/-- The result translation of `Seek for Data`: a nonnegative native position
    is returned as `Ok(result as u64)`, a negative one becomes
    `Err(Error::last_os_error().into())`. -/
def Data.seek (nativeRes : Int) (lastOs : IoErr) : Except IoErr Nat :=
  if 0 ≤ nativeRes then Except.ok nativeRes.toNat else Except.error lastOs

/-- A UTF-8 decoding failure as reported by the external `str::from_utf8`. -/
structure Utf8Err where
  validUpTo : Nat
deriving DecidableEq

/-- `Data::filename_raw` (src/data.rs lines 261-263): the native
    `gpgme_data_get_file_name` pointer, `none` for null, otherwise the
    C string's bytes. -/
def Data.filename_raw (native : Option (List Nat)) : Option (List Nat) :=
  native

/-- `Data::filename` (src/data.rs lines 257-259):
    `filename_raw().map_or(Err(None), |s| s.to_str().map_err(Some))`.
    `toStr` is the external UTF-8 validation `CStr::to_str`. -/
def Data.filename (toStr : List Nat → Except Utf8Err String)
    (native : Option (List Nat)) : Except (Option Utf8Err) String :=
  match Data.filename_raw native with
  | none => Except.error none
  | some s =>
    match toStr s with
    | Except.ok str => Except.ok str
    | Except.error err => Except.error (some err)

/-- A value below 2^63 survives the cast to a signed 64-bit type unchanged. -/
theorem i64ofNat_eq_of_lt (n : Nat) (hn : n < 2 ^ 63) : i64ofNat n = (n : Int) := by
  have hm : n % 2 ^ 64 = n := Nat.mod_eq_of_lt (by omega)
  unfold i64ofNat
  rw [hm, if_pos hn]

/-- The callback table registered with the engine is the one the constructor
    built, on the success and on the failure path alike. -/
theorem from_callbacks_registeredCbs {S : Type} (cbs : DataCbs) (src : S)
    (f h : Nat) : (Data.from_callbacks cbs src f h).registeredCbs = cbs := by
  by_cases hf : f = 0 <;> simp [Data.from_callbacks, hf]

/-- Claim C1: when native registration in `Data::from_callbacks` fails with a
    nonzero status, the function reclaims the heap-allocated callback context
    (no context allocated by the call stays live), returns a `WrappedError`
    whose `into_inner` yields the original stream object unchanged, and
    produces no Data object. -/
theorem from_callbacks_failure_returns_stream :
    ∀ (S : Type) (cbs : DataCbs) (src : S) (f h : Nat), f ≠ 0 →
    Data.from_callbacks cbs src f h =
      ⟨Except.error ⟨Error.new f, src⟩, cbs, 0⟩ ∧
    WrappedError.into_inner (⟨Error.new f, src⟩ : WrappedError S) = src ∧
    ∀ d : Option Data, (Data.from_callbacks cbs src f h).res ≠ Except.ok d := by
  intro S cbs src f h hf
  refine ⟨?_, rfl, ?_⟩
  · simp [Data.from_callbacks, hf]
  · intro d
    simp [Data.from_callbacks, hf]

/-- Evaluation of the C1 theorem on a concrete failing registration. -/
theorem from_callbacks_failure_returns_stream_witness :
    Data.from_callbacks ⟨none, none, none, none⟩ (42 : Nat) 7 0 =
      ⟨Except.error ⟨Error.new 7, 42⟩, ⟨none, none, none, none⟩, 0⟩ :=
  (from_callbacks_failure_returns_stream Nat ⟨none, none, none, none⟩ 42 7 0
    (by decide)).1

/-- Claim C4: each terminal operation on a Data object releases the native
    handle exactly once, except `into_raw`, which releases zero times and
    hands the raw handle to the caller after forgetting the value so the drop
    glue can never run on it; `try_into_bytes` releases once inside the native
    call and, having gone through `into_raw`, is not released again by drop. -/
theorem release_exactly_once_per_path :
    ∀ (d : Data) (buf : Option (List Nat)),
    releasesOnPath d FinalOp.dropIt = 1 ∧
    releasesOnPath d (FinalOp.tryIntoBytes buf) = 1 ∧
    releasesOnPath d FinalOp.intoRaw = 0 ∧
    (Data.into_raw ⟨d, false⟩).1 = d.raw ∧
    (Data.into_raw ⟨d, false⟩).2.forgotten = true := by
  intro d buf
  refine ⟨?_, ?_, ?_, rfl, rfl⟩ <;>
    simp [releasesOnPath, drop_glue, Data.into_raw, Data.try_into_bytes, mem_forget]

/-- Evaluation of the C4 theorem on a concrete handle. -/
theorem release_exactly_once_per_path_witness :
    releasesOnPath ⟨3⟩ FinalOp.dropIt = 1 ∧
    releasesOnPath ⟨3⟩ FinalOp.intoRaw = 0 ∧
    releasesOnPath ⟨3⟩ (FinalOp.tryIntoBytes none) = 1 :=
  ⟨(release_exactly_once_per_path ⟨3⟩ none).1,
   (release_exactly_once_per_path ⟨3⟩ none).2.2.1,
   (release_exactly_once_per_path ⟨3⟩ none).2.1⟩

/-- Claim C5: each stream constructor hands the engine exactly the callback
    slots of its declared capability set: `from_reader` read and release;
    `from_writer` write and release; `from_stream` read, write and release
    but not seek; the three seekable variants additionally seek; release is
    populated in every case and every other slot is left empty. -/
theorem constructors_populate_declared_slots :
    ∀ (S : Type) (s : S) (f h : Nat),
    (Data.from_reader s f h).registeredCbs =
      ⟨some CbFn.readCb, none, none, some CbFn.releaseCb⟩ ∧
    (Data.from_writer s f h).registeredCbs =
      ⟨none, some CbFn.writeCb, none, some CbFn.releaseCb⟩ ∧
    (Data.from_stream s f h).registeredCbs =
      ⟨some CbFn.readCb, some CbFn.writeCb, none, some CbFn.releaseCb⟩ ∧
    (Data.from_seekable_reader s f h).registeredCbs =
      ⟨some CbFn.readCb, none, some CbFn.seekCb, some CbFn.releaseCb⟩ ∧
    (Data.from_seekable_writer s f h).registeredCbs =
      ⟨none, some CbFn.writeCb, some CbFn.seekCb, some CbFn.releaseCb⟩ ∧
    (Data.from_seekable_stream s f h).registeredCbs =
      ⟨some CbFn.readCb, some CbFn.writeCb, some CbFn.seekCb, some CbFn.releaseCb⟩ := by
  intro S s f h
  refine ⟨?_, ?_, ?_, ?_, ?_, ?_⟩ <;>
    simp [Data.from_reader, Data.from_writer, Data.from_stream,
      Data.from_seekable_reader, Data.from_seekable_writer,
      Data.from_seekable_stream, from_callbacks_registeredCbs]

/-- Evaluation of the C5 theorem on a concrete stream. -/
theorem constructors_populate_declared_slots_witness :
    (Data.from_reader (42 : Nat) 0 1).registeredCbs =
      ⟨some CbFn.readCb, none, none, some CbFn.releaseCb⟩ :=
  (constructors_populate_declared_slots Nat 42 0 1).1

/-- Claim C7: `Data::from_raw` debug-asserts the handle is non-null, so no
    Data object is ever built around a null handle; and `Data::new` checks
    the engine status before ever reaching `from_raw`, so an ordinary
    engine-reported failure returns an error result and cannot trigger the
    assertion, whatever the out-parameter holds. -/
theorem from_raw_rejects_null_and_new_checks_status :
    ∀ (raw f h : Nat),
    (∀ d : Data, Data.from_raw raw = some d → raw ≠ 0) ∧
    Data.from_raw 0 = none ∧
    (f ≠ 0 → Data.new f h = Except.error (Error.new f)) ∧
    (f = 0 → Data.new f h = Except.ok (Data.from_raw h)) := by
  intro raw f h
  refine ⟨?_, rfl, ?_, ?_⟩
  · intro d hd h0
    subst h0
    simp [Data.from_raw] at hd
  · intro hf
    simp [Data.new, hf]
  · intro hf
    simp [Data.new, hf]

/-- Evaluation of the C7 theorem on a concrete failing construction. -/
theorem from_raw_rejects_null_and_new_checks_status_witness :
    Data.new 7 0 = Except.error (Error.new 7) :=
  (from_raw_rejects_null_and_new_checks_status 1 7 0).2.2.1 (by decide)

/-- Claim C8: the stdin, stdout and stderr constructors map a construction
    failure to the bare error via `err.error()`, so the caller gets only the
    status code back while the wrapped stream object is discarded — unlike
    `from_reader` itself, which returns the stream inside the error. -/
theorem std_constructors_discard_stream :
    ∀ (f h : Nat), f ≠ 0 →
    Data.stdin f h = Except.error (Error.new f) ∧
    Data.stdout f h = Except.error (Error.new f) ∧
    Data.stderr f h = Except.error (Error.new f) ∧
    (Data.from_reader StdHandle.stdinObj f h).res =
      Except.error ⟨Error.new f, StdHandle.stdinObj⟩ ∧
    WrappedError.error (⟨Error.new f, StdHandle.stdinObj⟩ : WrappedError StdHandle) =
      Error.new f := by
  intro f h hf
  refine ⟨?_, ?_, ?_, ?_, rfl⟩ <;>
    simp [Data.stdin, Data.stdout, Data.stderr, Data.from_reader, Data.from_writer,
      Data.from_callbacks, hf, WrappedError.error]

/-- Evaluation of the C8 theorem on a concrete failing construction. -/
theorem std_constructors_discard_stream_witness :
    Data.stdin 7 0 = Except.error (Error.new 7) :=
  (std_constructors_discard_stream 7 0 (by decide)).1

/-- Claim C2 counterexample: a read callback whose underlying stream reports
    success with 2^64 - 1 bytes does not return that count — the cast
    `n as libc::ssize_t` wraps it to -1, the failure sentinel, and the
    last-error state is not set. -/
theorem read_callback_huge_count_counterexample :
    (read_callback sampleEnv (Except.ok (2 ^ 64 - 1))).1 = -1 ∧
    (read_callback sampleEnv (Except.ok (2 ^ 64 - 1))).2 = none ∧
    ((2 ^ 64 - 1 : Nat) : Int) ≠ -1 := by
  refine ⟨by decide, rfl, by decide⟩

/-- Claim C2 (amended): if the underlying stream operation succeeds with n
    bytes, the callback returns `n as ssize_t` — which equals n whenever
    n < 2^63 — and leaves the last-error state untouched; if it fails, the
    callback stores the translated native error code in the last-error state
    and returns the sentinel -1, never returning the sentinel on failure
    without the state set. -/
theorem read_write_callback_amended :
    ∀ (env : ErrEnv) (n : Nat) (err : IoErr),
    (n < 2 ^ 63 → read_callback env (Except.ok n) = ((n : Int), none) ∧
                  write_callback env (Except.ok n) = ((n : Int), none)) ∧
    read_callback env (Except.ok n) = (i64ofNat n, none) ∧
    write_callback env (Except.ok n) = (i64ofNat n, none) ∧
    read_callback env (Except.error err) = (-1, some (env.ioErrToErrno err)) ∧
    write_callback env (Except.error err) = (-1, some (env.ioErrToErrno err)) := by
  intro env n err
  refine ⟨?_, rfl, rfl, rfl, rfl⟩
  intro hn
  have he : i64ofNat n = (n : Int) := i64ofNat_eq_of_lt n hn
  exact ⟨by simp [read_callback, he], by simp [write_callback, he]⟩

/-- Evaluation of the amended C2 theorem on concrete invocations. -/
theorem read_write_callback_amended_witness :
    read_callback sampleEnv (Except.ok 5) = ((5 : Int), none) ∧
    read_callback sampleEnv (Except.error ⟨3⟩) = (-1, some 4) := by
  have h1 := ((read_write_callback_amended sampleEnv 5 ⟨3⟩).1 (by decide)).1
  have h2 := (read_write_callback_amended sampleEnv 5 ⟨3⟩).2.2.2.1
  exact ⟨h1, by simpa [sampleEnv] using h2⟩

/-- A user stream whose seek always reports position 2^63. -/
def bigPosSeek : SeekFrom → Except IoErr Nat := fun _ => Except.ok (2 ^ 63)

/-- Claim C3 counterexample: a seek callback whose stream succeeds with new
    absolute position 2^63 does not return that position — the cast
    `n as libc::off_t` wraps it to a negative value. -/
theorem seek_callback_huge_position_counterexample :
    (seek_callback sampleEnv bigPosSeek 0 SEEK_SET).1 < 0 ∧
    (seek_callback sampleEnv bigPosSeek 0 SEEK_SET).1 ≠ ((2 ^ 63 : Nat) : Int) := by
  refine ⟨by decide, by decide⟩

/-- Claim C3 (amended): a whence code other than SEEK_SET, SEEK_END and
    SEEK_CUR makes the callback set the native invalid-argument error in the
    last-error state and return the failure sentinel without ever invoking
    the user stream's seek; the three recognized codes map to the
    Start/End/Current seek requests respectively, and on success the callback
    returns the stream's new absolute position cast to off_t — equal to the
    position itself whenever it is below 2^63. -/
theorem seek_callback_amended :
    ∀ (env : ErrEnv) (seekFn : SeekFrom → Except IoErr Nat) (offset whence : Int),
    (whence ≠ SEEK_SET → whence ≠ SEEK_END → whence ≠ SEEK_CUR →
      seek_callback env seekFn offset whence = (-1, some env.einvalErrno, false)) ∧
    seek_callback env seekFn offset SEEK_SET =
      runSeek env seekFn (SeekFrom.Start (u64ofInt offset)) ∧
    seek_callback env seekFn offset SEEK_END =
      runSeek env seekFn (SeekFrom.End offset) ∧
    seek_callback env seekFn offset SEEK_CUR =
      runSeek env seekFn (SeekFrom.Current offset) ∧
    (∀ (pos : SeekFrom) (n : Nat), seekFn pos = Except.ok n → n < 2 ^ 63 →
      runSeek env seekFn pos = ((n : Int), none, true)) ∧
    (∀ (pos : SeekFrom) (err : IoErr), seekFn pos = Except.error err →
      runSeek env seekFn pos = (-1, some (env.ioErrToErrno err), true)) := by
  intro env seekFn offset whence
  refine ⟨?_, ?_, ?_, ?_, ?_, ?_⟩
  · intro h0 h2 h1
    simp [seek_callback, h0, h1, h2]
  · simp [seek_callback, SEEK_SET]
  · simp [seek_callback, SEEK_SET, SEEK_END]
  · simp [seek_callback, SEEK_SET, SEEK_END, SEEK_CUR]
  · intro pos n hok hn
    simp [runSeek, hok, i64ofNat_eq_of_lt n hn]
  · intro pos err herr
    simp [runSeek, herr]

/-- Evaluation of the amended C3 theorem on a concrete invalid whence code. -/
theorem seek_callback_amended_witness :
    seek_callback sampleEnv bigPosSeek 5 7 = (-1, some 22, false) := by
  have h := (seek_callback_amended sampleEnv bigPosSeek 5 7).1
    (by decide) (by decide) (by decide)
  simpa [sampleEnv] using h

/-- Claim C6: the stream facade's read returns `Ok(n)` with n the engine's
    nonnegative byte count (0 at end-of-stream) and turns every negative
    native return into an error built from the thread's last OS error; write
    mirrors this; flush returns `Ok(())` and by its very type consults no
    engine result. -/
theorem facade_read_write_flush :
    ∀ (res : Int) (lastOs : IoErr),
    (0 ≤ res → Data.read res lastOs = Except.ok res.toNat ∧
               Data.write res lastOs = Except.ok res.toNat ∧
               (res.toNat : Int) = res) ∧
    (res < 0 → Data.read res lastOs = Except.error lastOs ∧
               Data.write res lastOs = Except.error lastOs) ∧
    Data.flush = Except.ok () := by
  intro res lastOs
  refine ⟨?_, ?_, rfl⟩
  · intro hr
    exact ⟨by simp [Data.read, hr], by simp [Data.write, hr],
      Int.toNat_of_nonneg hr⟩
  · intro hr
    have hn : ¬ 0 ≤ res := not_le.mpr hr
    exact ⟨by simp [Data.read, hn], by simp [Data.write, hn]⟩

/-- Evaluation of the C6 theorem on concrete native results. -/
theorem facade_read_write_flush_witness :
    Data.read 5 ⟨9⟩ = Except.ok 5 ∧
    Data.read (-1) ⟨9⟩ = Except.error ⟨9⟩ :=
  ⟨((facade_read_write_flush 5 ⟨9⟩).1 (by decide)).1,
   ((facade_read_write_flush (-1) ⟨9⟩).2.1 (by decide)).1⟩

/-- Claim C9: the stream facade's seek converts `SeekFrom::Start(off)` with
    the unchecked cast `off as libc::off_t`, so an offset at or above 2^63 is
    handed to the engine as a negative offset (off - 2^64) under the SEEK_SET
    whence code instead of being rejected. -/
theorem seek_facade_start_cast_wraps :
    ∀ off : Nat, 2 ^ 63 ≤ off → off < 2 ^ 64 →
    (seek_conv (SeekFrom.Start off)).1 = (off : Int) - 2 ^ 64 ∧
    (seek_conv (SeekFrom.Start off)).1 < 0 ∧
    (seek_conv (SeekFrom.Start off)).2 = SEEK_SET := by
  intro off h1 h2
  have hm : off % 2 ^ 64 = off := Nat.mod_eq_of_lt h2
  have hlt : ¬ off % 2 ^ 64 < 2 ^ 63 := by
    rw [hm]
    omega
  have e1 : (seek_conv (SeekFrom.Start off)).1 = (off : Int) - 2 ^ 64 := by
    show i64ofNat off = (off : Int) - 2 ^ 64
    unfold i64ofNat
    rw [hm, if_neg (by omega : ¬ off < 2 ^ 63)]
  refine ⟨e1, ?_, rfl⟩
  rw [e1]
  have : (off : Int) < 2 ^ 64 := by exact_mod_cast h2
  omega

/-- Evaluation of the C9 theorem at the smallest wrapping offset. -/
theorem seek_facade_start_cast_wraps_witness :
    (seek_conv (SeekFrom.Start (2 ^ 63))).1 = ((2 ^ 63 : Nat) : Int) - 2 ^ 64 ∧
    (seek_conv (SeekFrom.Start (2 ^ 63))).1 < 0 :=
  ⟨(seek_facade_start_cast_wraps (2 ^ 63) (by decide) (by decide)).1,
   (seek_facade_start_cast_wraps (2 ^ 63) (by decide) (by decide)).2.1⟩

/-- Claim C10: `Data::filename` returns `Err(None)` exactly when the engine
    reports no filename, `Err(Some(e))` exactly when a filename is present
    but fails UTF-8 validation with e, and `Ok(s)` exactly when a filename is
    present and decodes to s; being a total match over these cases, it aborts
    on none of them. -/
theorem filename_trichotomy :
    ∀ (toStr : List Nat → Except Utf8Err String) (native : Option (List Nat)),
    (Data.filename toStr native = Except.error none ↔ native = none) ∧
    (∀ err : Utf8Err, Data.filename toStr native = Except.error (some err) ↔
      ∃ bs, native = some bs ∧ toStr bs = Except.error err) ∧
    (∀ str : String, Data.filename toStr native = Except.ok str ↔
      ∃ bs, native = some bs ∧ toStr bs = Except.ok str) := by
  intro toStr native
  cases native with
  | none => simp [Data.filename, Data.filename_raw]
  | some bs =>
    cases hts : toStr bs with
    | ok s => simp [Data.filename, Data.filename_raw, hts]
    | error e => simp [Data.filename, Data.filename_raw, hts]

/-- Evaluation of the C10 theorem on concrete engine answers. -/
theorem filename_trichotomy_witness :
    Data.filename (fun _ => Except.error ⟨0⟩) none = Except.error none ∧
    Data.filename (fun _ => Except.error ⟨0⟩) (some [255]) =
      Except.error (some ⟨0⟩) :=
  ⟨(filename_trichotomy (fun _ => Except.error ⟨0⟩) none).1.mpr rfl,
   ((filename_trichotomy (fun _ => Except.error ⟨0⟩) (some [255])).2.1 ⟨0⟩).mpr
     ⟨[255], rfl, rfl⟩⟩
